import Mathlib

/-!
Shallow embedding of `src/PICMI_Python/diagnostics.py`.

The file defines five plain configuration-holder classes:
`PICMI_FieldDiagnostic`, `PICMI_ElectrostaticFieldDiagnostic`,
`PICMI_ParticleDiagnostic`, `PICMI_LabFrameFieldDiagnostic` and
`PICMI_LabFrameParticleDiagnostic`.  Each class has a single operation,
construction, which stores its arguments as attributes; the two
simulation-frame field diagnostics additionally default their three
geometry attributes from the supplied grid object when the caller
passed `None`.

Modelling decisions:
- Python values are modelled by the dynamic type `PyVal`; the Python
  value `None` is the constructor `PyVal.pyNone`.
- A Python optional keyword argument is an `Option PyVal`: `Option.none`
  means the caller omitted the argument (so the Python default applies),
  `Option.some v` means the caller supplied the Python value `v`.
  Supplying Python `None` explicitly is `Option.some PyVal.pyNone`,
  which Python treats exactly like omission for a `None`-defaulted
  parameter, and which the embedding treats the same way via `Option.getD`.
- The grid argument is an `Option GridObj`: `Option.none` is the Python
  value `None` (an object with no `number_of_cells` attribute, so that
  attribute access on it raises `AttributeError`), `Option.some g` is a
  grid object `g` whose three geometry attributes may each be present or
  absent.
- Attribute access that can raise `AttributeError` is modelled with
  `Except PyFault`; a constructor body that performs such accesses
  returns `Except PyFault` and propagates the first failure, exactly as
  the Python exception would abort `__init__`.
- Function-call argument binding for the two lab-frame classes, whose
  `num_snapshots` and `dt_snapshots` parameters have no default, is
  modelled by `call` wrappers returning `Except PyCallFault`: omitting a
  required positional argument is the Python `TypeError` raised before
  the body runs.
-/

/-- An atomic Python value: `None`, an integer, or a string. -/
inductive PyAtom where
  | aNone : PyAtom
  | aInt (n : Int) : PyAtom
  | aStr (s : String) : PyAtom
deriving DecidableEq, Repr

/-- Dynamic Python value, as far as this module manipulates values:
`None`, integers, strings, and lists of atoms.  The constructors treat
every value opaquely except for the `is None` test, so list elements
need not themselves be lists for any behaviour of the module. -/
inductive PyVal where
  | pyNone : PyVal
  | pyInt (n : Int) : PyVal
  | pyStr (s : String) : PyVal
  | pyList (l : List PyAtom) : PyVal
deriving DecidableEq, Repr

/-- A grid object as seen by the diagnostics constructors: each of the
three geometry attributes may be present (with some Python value) or
absent (so that reading it raises `AttributeError`). -/
structure GridObj where
  number_of_cells : Option PyVal
  lower_bound : Option PyVal
  upper_bound : Option PyVal
deriving DecidableEq, Repr

/-- The fault class a constructor body can raise: a missing-attribute
fault (`AttributeError`), carrying the name of the missing attribute. -/
inductive PyFault where
  | attributeError (attr : String) : PyFault
deriving DecidableEq, Repr

/-- The fault raised by Python argument binding when a required
positional argument is omitted (`TypeError`), carrying the name of the
missing parameter. -/
inductive PyCallFault where
  | typeError (missing : String) : PyCallFault
deriving DecidableEq, Repr

/-- Python attribute read `grid.number_of_cells` where `grid` may be the
Python value `None` or a grid object lacking the attribute. -/
def gridGetNumberOfCells : Option GridObj → Except PyFault PyVal
  | Option.none => Except.error (PyFault.attributeError "number_of_cells")
  | Option.some g =>
    match g.number_of_cells with
    | Option.none => Except.error (PyFault.attributeError "number_of_cells")
    | Option.some v => Except.ok v

/-- Python attribute read `grid.lower_bound`. -/
def gridGetLowerBound : Option GridObj → Except PyFault PyVal
  | Option.none => Except.error (PyFault.attributeError "lower_bound")
  | Option.some g =>
    match g.lower_bound with
    | Option.none => Except.error (PyFault.attributeError "lower_bound")
    | Option.some v => Except.ok v

/-- Python attribute read `grid.upper_bound`. -/
def gridGetUpperBound : Option GridObj → Except PyFault PyVal
  | Option.none => Except.error (PyFault.attributeError "upper_bound")
  | Option.some g =>
    match g.upper_bound with
    | Option.none => Except.error (PyFault.attributeError "upper_bound")
    | Option.some v => Except.ok v

/-- Modelled from the spec: the shared initialization helper
`_ClassWithInit.handle_init` lives in `PICMI_Python/base.py`, which is
not among the provided sources; only its call sites are.  Per the spec,
every constructor hands its leftover keyword arguments to this helper,
which stores them on the object rather than rejecting them, so that each
extra key is retrievable afterward and construction does not raise. -/
def handle_init (kw : List (String × PyVal)) : List (String × PyVal) := kw

/-- Default `data_list` of `PICMI_FieldDiagnostic`:
`["rho", "E", "B", "J"]`. -/
def fieldDiagnosticDefaultDataList : PyVal :=
  PyVal.pyList [PyAtom.aStr "rho", PyAtom.aStr "E", PyAtom.aStr "B", PyAtom.aStr "J"]

/-- Default `data_list` of `PICMI_ElectrostaticFieldDiagnostic`:
`["rho", "phi"]`. -/
def electrostaticDefaultDataList : PyVal :=
  PyVal.pyList [PyAtom.aStr "rho", PyAtom.aStr "phi"]

/-- Default `data_list` of `PICMI_ParticleDiagnostic` and
`PICMI_LabFrameParticleDiagnostic`: `["position", "momentum", "weighting"]`. -/
def particleDiagnosticDefaultDataList : PyVal :=
  PyVal.pyList [PyAtom.aStr "position", PyAtom.aStr "momentum", PyAtom.aStr "weighting"]

/-- Default `data_list` of `PICMI_LabFrameFieldDiagnostic`:
`["rho", "E", "B", "J"]`. -/
def labFrameFieldDefaultDataList : PyVal :=
  PyVal.pyList [PyAtom.aStr "rho", PyAtom.aStr "E", PyAtom.aStr "B", PyAtom.aStr "J"]

/-- The attributes a successfully constructed `PICMI_FieldDiagnostic`
holds. -/
structure FieldDiagnostic where
  grid : Option GridObj
  period : PyVal
  data_list : PyVal
  write_dir : PyVal
  step_min : PyVal
  step_max : PyVal
  number_of_cells : PyVal
  lower_bound : PyVal
  upper_bound : PyVal
  extra : List (String × PyVal)
deriving DecidableEq, Repr

/-- The attributes a successfully constructed
`PICMI_ElectrostaticFieldDiagnostic` holds. -/
structure ElectrostaticFieldDiagnostic where
  grid : Option GridObj
  period : PyVal
  data_list : PyVal
  write_dir : PyVal
  step_min : PyVal
  step_max : PyVal
  number_of_cells : PyVal
  lower_bound : PyVal
  upper_bound : PyVal
  extra : List (String × PyVal)
deriving DecidableEq, Repr

/-- The attributes a constructed `PICMI_ParticleDiagnostic` holds. -/
structure ParticleDiagnostic where
  period : PyVal
  species : PyVal
  data_list : PyVal
  write_dir : PyVal
  step_min : PyVal
  step_max : PyVal
  extra : List (String × PyVal)
deriving DecidableEq, Repr

/-- The attributes a constructed `PICMI_LabFrameFieldDiagnostic` holds. -/
structure LabFrameFieldDiagnostic where
  num_snapshots : PyVal
  dt_snapshots : PyVal
  data_list : PyVal
  write_dir : PyVal
  extra : List (String × PyVal)
deriving DecidableEq, Repr

/-- The attributes a constructed `PICMI_LabFrameParticleDiagnostic`
holds. -/
structure LabFrameParticleDiagnostic where
  num_snapshots : PyVal
  dt_snapshots : PyVal
  species : PyVal
  data_list : PyVal
  write_dir : PyVal
  extra : List (String × PyVal)
deriving DecidableEq, Repr

/-- Body of `PICMI_FieldDiagnostic.__init__` (diagnostics.py lines
33-61).  Optional parameters are `Option PyVal` (`Option.none` =
omitted); after Python default application, each of the three geometry
parameters that `is None` is read from the grid, in source order
(`number_of_cells`, then `lower_bound`, then `upper_bound`), and the
first failing attribute read aborts construction. -/
def PICMI_FieldDiagnostic.init
    (grid : Option GridObj)
    (period data_list write_dir step_min step_max : Option PyVal)
    (number_of_cells lower_bound upper_bound : Option PyVal)
    (kw : List (String × PyVal)) : Except PyFault FieldDiagnostic :=
  match (if number_of_cells.getD PyVal.pyNone = PyVal.pyNone
         then gridGetNumberOfCells grid
         else Except.ok (number_of_cells.getD PyVal.pyNone)) with
  | Except.error e => Except.error e
  | Except.ok nc =>
    match (if lower_bound.getD PyVal.pyNone = PyVal.pyNone
           then gridGetLowerBound grid
           else Except.ok (lower_bound.getD PyVal.pyNone)) with
    | Except.error e => Except.error e
    | Except.ok lb =>
      match (if upper_bound.getD PyVal.pyNone = PyVal.pyNone
             then gridGetUpperBound grid
             else Except.ok (upper_bound.getD PyVal.pyNone)) with
      | Except.error e => Except.error e
      | Except.ok ub =>
        Except.ok
          { grid := grid
            period := period.getD (PyVal.pyInt 1)
            data_list := data_list.getD fieldDiagnosticDefaultDataList
            write_dir := write_dir.getD PyVal.pyNone
            step_min := step_min.getD PyVal.pyNone
            step_max := step_max.getD PyVal.pyNone
            number_of_cells := nc
            lower_bound := lb
            upper_bound := ub
            extra := handle_init kw }

/-- Body of `PICMI_ElectrostaticFieldDiagnostic.__init__`
(diagnostics.py lines 82-110); identical to the electromagnetic variant
except for the default `data_list`. -/
def PICMI_ElectrostaticFieldDiagnostic.init
    (grid : Option GridObj)
    (period data_list write_dir step_min step_max : Option PyVal)
    (number_of_cells lower_bound upper_bound : Option PyVal)
    (kw : List (String × PyVal)) : Except PyFault ElectrostaticFieldDiagnostic :=
  match (if number_of_cells.getD PyVal.pyNone = PyVal.pyNone
         then gridGetNumberOfCells grid
         else Except.ok (number_of_cells.getD PyVal.pyNone)) with
  | Except.error e => Except.error e
  | Except.ok nc =>
    match (if lower_bound.getD PyVal.pyNone = PyVal.pyNone
           then gridGetLowerBound grid
           else Except.ok (lower_bound.getD PyVal.pyNone)) with
    | Except.error e => Except.error e
    | Except.ok lb =>
      match (if upper_bound.getD PyVal.pyNone = PyVal.pyNone
             then gridGetUpperBound grid
             else Except.ok (upper_bound.getD PyVal.pyNone)) with
      | Except.error e => Except.error e
      | Except.ok ub =>
        Except.ok
          { grid := grid
            period := period.getD (PyVal.pyInt 1)
            data_list := data_list.getD electrostaticDefaultDataList
            write_dir := write_dir.getD PyVal.pyNone
            step_min := step_min.getD PyVal.pyNone
            step_max := step_max.getD PyVal.pyNone
            number_of_cells := nc
            lower_bound := lb
            upper_bound := ub
            extra := handle_init kw }

/-- Body of `PICMI_ParticleDiagnostic.__init__` (diagnostics.py lines
127-142): verbatim storage, no failure possible. -/
def PICMI_ParticleDiagnostic.init
    (period species data_list write_dir step_min step_max : Option PyVal)
    (kw : List (String × PyVal)) : ParticleDiagnostic :=
  { period := period.getD (PyVal.pyInt 1)
    species := species.getD PyVal.pyNone
    data_list := data_list.getD particleDiagnosticDefaultDataList
    write_dir := write_dir.getD PyVal.pyNone
    step_min := step_min.getD PyVal.pyNone
    step_max := step_max.getD PyVal.pyNone
    extra := handle_init kw }

/-- Body of `PICMI_LabFrameFieldDiagnostic.__init__` (diagnostics.py
lines 158-168): verbatim storage.  `num_snapshots` and `dt_snapshots`
are required, so here they are plain values; argument binding is
`PICMI_LabFrameFieldDiagnostic.call`. -/
def PICMI_LabFrameFieldDiagnostic.init
    (num_snapshots dt_snapshots : PyVal)
    (data_list write_dir : Option PyVal)
    (kw : List (String × PyVal)) : LabFrameFieldDiagnostic :=
  { num_snapshots := num_snapshots
    dt_snapshots := dt_snapshots
    data_list := data_list.getD labFrameFieldDefaultDataList
    write_dir := write_dir.getD PyVal.pyNone
    extra := handle_init kw }

/-- Python call binding for `PICMI_LabFrameFieldDiagnostic(...)`:
`num_snapshots` and `dt_snapshots` have no default, so a call omitting
either raises `TypeError` before the body runs. -/
def PICMI_LabFrameFieldDiagnostic.call
    (num_snapshots dt_snapshots : Option PyVal)
    (data_list write_dir : Option PyVal)
    (kw : List (String × PyVal)) : Except PyCallFault LabFrameFieldDiagnostic :=
  match num_snapshots with
  | Option.none => Except.error (PyCallFault.typeError "num_snapshots")
  | Option.some ns =>
    match dt_snapshots with
    | Option.none => Except.error (PyCallFault.typeError "dt_snapshots")
    | Option.some dts =>
      Except.ok (PICMI_LabFrameFieldDiagnostic.init ns dts data_list write_dir kw)

/-- Body of `PICMI_LabFrameParticleDiagnostic.__init__` (diagnostics.py
lines 181-193): verbatim storage. -/
def PICMI_LabFrameParticleDiagnostic.init
    (num_snapshots dt_snapshots : PyVal)
    (species data_list write_dir : Option PyVal)
    (kw : List (String × PyVal)) : LabFrameParticleDiagnostic :=
  { num_snapshots := num_snapshots
    dt_snapshots := dt_snapshots
    species := species.getD PyVal.pyNone
    data_list := data_list.getD particleDiagnosticDefaultDataList
    write_dir := write_dir.getD PyVal.pyNone
    extra := handle_init kw }

/-- Python call binding for `PICMI_LabFrameParticleDiagnostic(...)`:
`num_snapshots` and `dt_snapshots` have no default, so a call omitting
either raises `TypeError` before the body runs. -/
def PICMI_LabFrameParticleDiagnostic.call
    (num_snapshots dt_snapshots : Option PyVal)
    (species data_list write_dir : Option PyVal)
    (kw : List (String × PyVal)) : Except PyCallFault LabFrameParticleDiagnostic :=
  match num_snapshots with
  | Option.none => Except.error (PyCallFault.typeError "num_snapshots")
  | Option.some ns =>
    match dt_snapshots with
    | Option.none => Except.error (PyCallFault.typeError "dt_snapshots")
    | Option.some dts =>
      Except.ok (PICMI_LabFrameParticleDiagnostic.init ns dts species data_list write_dir kw)

/-- A concrete grid whose three geometry attributes are all present;
used to instantiate the universally quantified theorems below at a
specific input. -/
def testGrid : GridObj :=
  { number_of_cells := Option.some (PyVal.pyList [PyAtom.aInt 8, PyAtom.aInt 16])
    lower_bound := Option.some (PyVal.pyList [PyAtom.aInt 0, PyAtom.aInt 0])
    upper_bound := Option.some (PyVal.pyList [PyAtom.aInt 1, PyAtom.aInt 2]) }

/-- A concrete grid object lacking all three geometry attributes, so
that every geometry attribute read on it raises `AttributeError`. -/
def emptyGrid : GridObj :=
  { number_of_cells := Option.none
    lower_bound := Option.none
    upper_bound := Option.none }

/-- The field diagnostic produced from `testGrid` when
`number_of_cells` is supplied explicitly as the integer 5 and every
other optional argument is omitted. -/
def c1Diag : FieldDiagnostic :=
  { grid := Option.some testGrid
    period := PyVal.pyInt 1
    data_list := fieldDiagnosticDefaultDataList
    write_dir := PyVal.pyNone
    step_min := PyVal.pyNone
    step_max := PyVal.pyNone
    number_of_cells := PyVal.pyInt 5
    lower_bound := PyVal.pyList [PyAtom.aInt 0, PyAtom.aInt 0]
    upper_bound := PyVal.pyList [PyAtom.aInt 1, PyAtom.aInt 2]
    extra := [] }

/-- The field diagnostic produced from `testGrid` when every optional
argument is omitted, so that all three geometry attributes come from the
grid. -/
def allDefaultFieldDiag : FieldDiagnostic :=
  { grid := Option.some testGrid
    period := PyVal.pyInt 1
    data_list := fieldDiagnosticDefaultDataList
    write_dir := PyVal.pyNone
    step_min := PyVal.pyNone
    step_max := PyVal.pyNone
    number_of_cells := PyVal.pyList [PyAtom.aInt 8, PyAtom.aInt 16]
    lower_bound := PyVal.pyList [PyAtom.aInt 0, PyAtom.aInt 0]
    upper_bound := PyVal.pyList [PyAtom.aInt 1, PyAtom.aInt 2]
    extra := [] }


lemma fieldInit_explicit
    (grid : Option GridObj) (p dl wd smin smax : Option PyVal)
    (nc lb ub : PyVal) (kw : List (String × PyVal))
    (hnc : nc ≠ PyVal.pyNone) (hlb : lb ≠ PyVal.pyNone) (hub : ub ≠ PyVal.pyNone) :
    PICMI_FieldDiagnostic.init grid p dl wd smin smax
        (Option.some nc) (Option.some lb) (Option.some ub) kw =
      Except.ok
        { grid := grid
          period := p.getD (PyVal.pyInt 1)
          data_list := dl.getD fieldDiagnosticDefaultDataList
          write_dir := wd.getD PyVal.pyNone
          step_min := smin.getD PyVal.pyNone
          step_max := smax.getD PyVal.pyNone
          number_of_cells := nc
          lower_bound := lb
          upper_bound := ub
          extra := handle_init kw } := by
  simp [PICMI_FieldDiagnostic.init, hnc, hlb, hub]

lemma fieldInit_default_from_grid
    (g : GridObj) (p dl wd smin smax ncA lbA ubA : Option PyVal)
    (kw : List (String × PyVal)) (d : FieldDiagnostic)
    (hok : PICMI_FieldDiagnostic.init (Option.some g) p dl wd smin smax ncA lbA ubA kw = Except.ok d) :
    (ncA.getD PyVal.pyNone = PyVal.pyNone → g.number_of_cells = Option.some d.number_of_cells) ∧
    (lbA.getD PyVal.pyNone = PyVal.pyNone → g.lower_bound = Option.some d.lower_bound) ∧
    (ubA.getD PyVal.pyNone = PyVal.pyNone → g.upper_bound = Option.some d.upper_bound) := by
  unfold PICMI_FieldDiagnostic.init at hok
  rcases hgnc : g.number_of_cells with _ | nc <;>
  rcases hglb : g.lower_bound with _ | lb <;>
  rcases hgub : g.upper_bound with _ | ub <;>
  by_cases h1 : ncA.getD PyVal.pyNone = PyVal.pyNone <;>
  by_cases h2 : lbA.getD PyVal.pyNone = PyVal.pyNone <;>
  by_cases h3 : ubA.getD PyVal.pyNone = PyVal.pyNone <;>
  simp [h1, h2, h3, gridGetNumberOfCells, gridGetLowerBound, gridGetUpperBound,
        hgnc, hglb, hgub] at hok ⊢ <;>
  simp [← hok]

lemma esInit_explicit
    (grid : Option GridObj) (p dl wd smin smax : Option PyVal)
    (nc lb ub : PyVal) (kw : List (String × PyVal))
    (hnc : nc ≠ PyVal.pyNone) (hlb : lb ≠ PyVal.pyNone) (hub : ub ≠ PyVal.pyNone) :
    PICMI_ElectrostaticFieldDiagnostic.init grid p dl wd smin smax
        (Option.some nc) (Option.some lb) (Option.some ub) kw =
      Except.ok
        { grid := grid
          period := p.getD (PyVal.pyInt 1)
          data_list := dl.getD electrostaticDefaultDataList
          write_dir := wd.getD PyVal.pyNone
          step_min := smin.getD PyVal.pyNone
          step_max := smax.getD PyVal.pyNone
          number_of_cells := nc
          lower_bound := lb
          upper_bound := ub
          extra := handle_init kw } := by
  simp [PICMI_ElectrostaticFieldDiagnostic.init, hnc, hlb, hub]

lemma esInit_default_from_grid
    (g : GridObj) (p dl wd smin smax ncA lbA ubA : Option PyVal)
    (kw : List (String × PyVal)) (d : ElectrostaticFieldDiagnostic)
    (hok : PICMI_ElectrostaticFieldDiagnostic.init (Option.some g) p dl wd smin smax ncA lbA ubA kw = Except.ok d) :
    (ncA.getD PyVal.pyNone = PyVal.pyNone → g.number_of_cells = Option.some d.number_of_cells) ∧
    (lbA.getD PyVal.pyNone = PyVal.pyNone → g.lower_bound = Option.some d.lower_bound) ∧
    (ubA.getD PyVal.pyNone = PyVal.pyNone → g.upper_bound = Option.some d.upper_bound) := by
  unfold PICMI_ElectrostaticFieldDiagnostic.init at hok
  rcases hgnc : g.number_of_cells with _ | nc <;>
  rcases hglb : g.lower_bound with _ | lb <;>
  rcases hgub : g.upper_bound with _ | ub <;>
  by_cases h1 : ncA.getD PyVal.pyNone = PyVal.pyNone <;>
  by_cases h2 : lbA.getD PyVal.pyNone = PyVal.pyNone <;>
  by_cases h3 : ubA.getD PyVal.pyNone = PyVal.pyNone <;>
  simp [h1, h2, h3, gridGetNumberOfCells, gridGetLowerBound, gridGetUpperBound,
        hgnc, hglb, hgub] at hok ⊢ <;>
  simp [← hok]

lemma fieldInit_ok_stores
    (grid : Option GridObj) (p dl wd smin smax ncA lbA ubA : Option PyVal)
    (kw : List (String × PyVal)) (d : FieldDiagnostic)
    (hok : PICMI_FieldDiagnostic.init grid p dl wd smin smax ncA lbA ubA kw = Except.ok d) :
    d.grid = grid ∧ d.period = p.getD (PyVal.pyInt 1) ∧
    d.data_list = dl.getD fieldDiagnosticDefaultDataList ∧
    d.write_dir = wd.getD PyVal.pyNone ∧
    d.step_min = smin.getD PyVal.pyNone ∧
    d.step_max = smax.getD PyVal.pyNone ∧
    d.extra = handle_init kw := by
  unfold PICMI_FieldDiagnostic.init at hok
  split at hok
  · exact absurd hok (by simp)
  split at hok
  · exact absurd hok (by simp)
  split at hok
  · exact absurd hok (by simp)
  cases hok
  exact ⟨rfl, rfl, rfl, rfl, rfl, rfl, rfl⟩

lemma esInit_ok_stores
    (grid : Option GridObj) (p dl wd smin smax ncA lbA ubA : Option PyVal)
    (kw : List (String × PyVal)) (d : ElectrostaticFieldDiagnostic)
    (hok : PICMI_ElectrostaticFieldDiagnostic.init grid p dl wd smin smax ncA lbA ubA kw = Except.ok d) :
    d.grid = grid ∧ d.period = p.getD (PyVal.pyInt 1) ∧
    d.data_list = dl.getD electrostaticDefaultDataList ∧
    d.write_dir = wd.getD PyVal.pyNone ∧
    d.step_min = smin.getD PyVal.pyNone ∧
    d.step_max = smax.getD PyVal.pyNone ∧
    d.extra = handle_init kw := by
  unfold PICMI_ElectrostaticFieldDiagnostic.init at hok
  split at hok
  · exact absurd hok (by simp)
  split at hok
  · exact absurd hok (by simp)
  split at hok
  · exact absurd hok (by simp)
  cases hok
  exact ⟨rfl, rfl, rfl, rfl, rfl, rfl, rfl⟩

lemma gridGetNumberOfCells_error (grid : Option GridObj) (e : PyFault)
    (h : gridGetNumberOfCells grid = Except.error e) :
    e = PyFault.attributeError "number_of_cells" := by
  rcases grid with _ | g
  · simp [gridGetNumberOfCells] at h
    exact h.symm
  · rcases hg : g.number_of_cells with _ | v <;>
      simp [gridGetNumberOfCells, hg] at h
    exact h.symm

lemma gridGetLowerBound_error (grid : Option GridObj) (e : PyFault)
    (h : gridGetLowerBound grid = Except.error e) :
    e = PyFault.attributeError "lower_bound" := by
  rcases grid with _ | g
  · simp [gridGetLowerBound] at h
    exact h.symm
  · rcases hg : g.lower_bound with _ | v <;>
      simp [gridGetLowerBound, hg] at h
    exact h.symm

lemma gridGetUpperBound_error (grid : Option GridObj) (e : PyFault)
    (h : gridGetUpperBound grid = Except.error e) :
    e = PyFault.attributeError "upper_bound" := by
  rcases grid with _ | g
  · simp [gridGetUpperBound] at h
    exact h.symm
  · rcases hg : g.upper_bound with _ | v <;>
      simp [gridGetUpperBound, hg] at h
    exact h.symm

lemma fieldInit_ok_provenance
    (grid : Option GridObj) (p dl wd smin smax ncA lbA ubA : Option PyVal)
    (kw : List (String × PyVal)) (d : FieldDiagnostic)
    (hok : PICMI_FieldDiagnostic.init grid p dl wd smin smax ncA lbA ubA kw = Except.ok d) :
    (d.number_of_cells = ncA.getD PyVal.pyNone ∨ gridGetNumberOfCells grid = Except.ok d.number_of_cells) ∧
    (d.lower_bound = lbA.getD PyVal.pyNone ∨ gridGetLowerBound grid = Except.ok d.lower_bound) ∧
    (d.upper_bound = ubA.getD PyVal.pyNone ∨ gridGetUpperBound grid = Except.ok d.upper_bound) := by
  unfold PICMI_FieldDiagnostic.init at hok
  split at hok
  · exact absurd hok (by simp)
  next nc h1 =>
  split at hok
  · exact absurd hok (by simp)
  next lb h2 =>
  split at hok
  · exact absurd hok (by simp)
  next ub h3 =>
  cases hok
  refine ⟨?_, ?_, ?_⟩
  · by_cases h : ncA.getD PyVal.pyNone = PyVal.pyNone
    · rw [if_pos h] at h1
      exact Or.inr h1
    · rw [if_neg h] at h1
      exact Or.inl (Except.ok.inj h1).symm
  · by_cases h : lbA.getD PyVal.pyNone = PyVal.pyNone
    · rw [if_pos h] at h2
      exact Or.inr h2
    · rw [if_neg h] at h2
      exact Or.inl (Except.ok.inj h2).symm
  · by_cases h : ubA.getD PyVal.pyNone = PyVal.pyNone
    · rw [if_pos h] at h3
      exact Or.inr h3
    · rw [if_neg h] at h3
      exact Or.inl (Except.ok.inj h3).symm

lemma fieldInit_error_classify
    (grid : Option GridObj) (p dl wd smin smax ncA lbA ubA : Option PyVal)
    (kw : List (String × PyVal)) (e : PyFault)
    (herr : PICMI_FieldDiagnostic.init grid p dl wd smin smax ncA lbA ubA kw = Except.error e) :
    e = PyFault.attributeError "number_of_cells" ∨
    e = PyFault.attributeError "lower_bound" ∨
    e = PyFault.attributeError "upper_bound" := by
  unfold PICMI_FieldDiagnostic.init at herr
  split at herr
  next e0 h1 =>
    obtain rfl : e0 = e := Except.error.inj herr
    by_cases h : ncA.getD PyVal.pyNone = PyVal.pyNone
    · rw [if_pos h] at h1
      exact Or.inl (gridGetNumberOfCells_error grid _ h1)
    · rw [if_neg h] at h1
      exact absurd h1 (by simp)
  next nc h1 =>
    split at herr
    next e0 h2 =>
      obtain rfl : e0 = e := Except.error.inj herr
      by_cases h : lbA.getD PyVal.pyNone = PyVal.pyNone
      · rw [if_pos h] at h2
        exact Or.inr (Or.inl (gridGetLowerBound_error grid _ h2))
      · rw [if_neg h] at h2
        exact absurd h2 (by simp)
    next lb h2 =>
      split at herr
      next e0 h3 =>
        obtain rfl : e0 = e := Except.error.inj herr
        by_cases h : ubA.getD PyVal.pyNone = PyVal.pyNone
        · rw [if_pos h] at h3
          exact Or.inr (Or.inr (gridGetUpperBound_error grid _ h3))
        · rw [if_neg h] at h3
          exact absurd h3 (by simp)
      next ub h3 =>
        exact absurd herr (by simp)

lemma esInit_ok_provenance
    (grid : Option GridObj) (p dl wd smin smax ncA lbA ubA : Option PyVal)
    (kw : List (String × PyVal)) (d : ElectrostaticFieldDiagnostic)
    (hok : PICMI_ElectrostaticFieldDiagnostic.init grid p dl wd smin smax ncA lbA ubA kw = Except.ok d) :
    (d.number_of_cells = ncA.getD PyVal.pyNone ∨ gridGetNumberOfCells grid = Except.ok d.number_of_cells) ∧
    (d.lower_bound = lbA.getD PyVal.pyNone ∨ gridGetLowerBound grid = Except.ok d.lower_bound) ∧
    (d.upper_bound = ubA.getD PyVal.pyNone ∨ gridGetUpperBound grid = Except.ok d.upper_bound) := by
  unfold PICMI_ElectrostaticFieldDiagnostic.init at hok
  split at hok
  · exact absurd hok (by simp)
  next nc h1 =>
  split at hok
  · exact absurd hok (by simp)
  next lb h2 =>
  split at hok
  · exact absurd hok (by simp)
  next ub h3 =>
  cases hok
  refine ⟨?_, ?_, ?_⟩
  · by_cases h : ncA.getD PyVal.pyNone = PyVal.pyNone
    · rw [if_pos h] at h1
      exact Or.inr h1
    · rw [if_neg h] at h1
      exact Or.inl (Except.ok.inj h1).symm
  · by_cases h : lbA.getD PyVal.pyNone = PyVal.pyNone
    · rw [if_pos h] at h2
      exact Or.inr h2
    · rw [if_neg h] at h2
      exact Or.inl (Except.ok.inj h2).symm
  · by_cases h : ubA.getD PyVal.pyNone = PyVal.pyNone
    · rw [if_pos h] at h3
      exact Or.inr h3
    · rw [if_neg h] at h3
      exact Or.inl (Except.ok.inj h3).symm

lemma esInit_error_classify
    (grid : Option GridObj) (p dl wd smin smax ncA lbA ubA : Option PyVal)
    (kw : List (String × PyVal)) (e : PyFault)
    (herr : PICMI_ElectrostaticFieldDiagnostic.init grid p dl wd smin smax ncA lbA ubA kw = Except.error e) :
    e = PyFault.attributeError "number_of_cells" ∨
    e = PyFault.attributeError "lower_bound" ∨
    e = PyFault.attributeError "upper_bound" := by
  unfold PICMI_ElectrostaticFieldDiagnostic.init at herr
  split at herr
  next e0 h1 =>
    obtain rfl : e0 = e := Except.error.inj herr
    by_cases h : ncA.getD PyVal.pyNone = PyVal.pyNone
    · rw [if_pos h] at h1
      exact Or.inl (gridGetNumberOfCells_error grid _ h1)
    · rw [if_neg h] at h1
      exact absurd h1 (by simp)
  next nc h1 =>
    split at herr
    next e0 h2 =>
      obtain rfl : e0 = e := Except.error.inj herr
      by_cases h : lbA.getD PyVal.pyNone = PyVal.pyNone
      · rw [if_pos h] at h2
        exact Or.inr (Or.inl (gridGetLowerBound_error grid _ h2))
      · rw [if_neg h] at h2
        exact absurd h2 (by simp)
    next lb h2 =>
      split at herr
      next e0 h3 =>
        obtain rfl : e0 = e := Except.error.inj herr
        by_cases h : ubA.getD PyVal.pyNone = PyVal.pyNone
        · rw [if_pos h] at h3
          exact Or.inr (Or.inr (gridGetUpperBound_error grid _ h3))
        · rw [if_neg h] at h3
          exact absurd h3 (by simp)
      next ub h3 =>
        exact absurd herr (by simp)

lemma fieldInit_no_grid_fails (p dl wd smin smax : Option PyVal) (kw : List (String × PyVal)) :
    PICMI_FieldDiagnostic.init Option.none p dl wd smin smax
        Option.none Option.none Option.none kw
      = Except.error (PyFault.attributeError "number_of_cells") := by
  simp [PICMI_FieldDiagnostic.init, gridGetNumberOfCells]

lemma esInit_no_grid_fails (p dl wd smin smax : Option PyVal) (kw : List (String × PyVal)) :
    PICMI_ElectrostaticFieldDiagnostic.init Option.none p dl wd smin smax
        Option.none Option.none Option.none kw
      = Except.error (PyFault.attributeError "number_of_cells") := by
  simp [PICMI_ElectrostaticFieldDiagnostic.init, gridGetNumberOfCells]

lemma fieldInit_ok_kw_any
    (grid : Option GridObj) (p dl wd smin smax ncA lbA ubA : Option PyVal)
    (kw kw' : List (String × PyVal)) (d : FieldDiagnostic)
    (hok : PICMI_FieldDiagnostic.init grid p dl wd smin smax ncA lbA ubA kw = Except.ok d) :
    ∃ d' : FieldDiagnostic,
      PICMI_FieldDiagnostic.init grid p dl wd smin smax ncA lbA ubA kw' = Except.ok d' := by
  unfold PICMI_FieldDiagnostic.init at hok ⊢
  split at hok
  · exact absurd hok (by simp)
  next nc h1 =>
  split at hok
  · exact absurd hok (by simp)
  next lb h2 =>
  split at hok
  · exact absurd hok (by simp)
  next ub h3 =>
  exact ⟨_, rfl⟩

lemma esInit_ok_kw_any
    (grid : Option GridObj) (p dl wd smin smax ncA lbA ubA : Option PyVal)
    (kw kw' : List (String × PyVal)) (d : ElectrostaticFieldDiagnostic)
    (hok : PICMI_ElectrostaticFieldDiagnostic.init grid p dl wd smin smax ncA lbA ubA kw = Except.ok d) :
    ∃ d' : ElectrostaticFieldDiagnostic,
      PICMI_ElectrostaticFieldDiagnostic.init grid p dl wd smin smax ncA lbA ubA kw' = Except.ok d' := by
  unfold PICMI_ElectrostaticFieldDiagnostic.init at hok ⊢
  split at hok
  · exact absurd hok (by simp)
  next nc h1 =>
  split at hok
  · exact absurd hok (by simp)
  next lb h2 =>
  split at hok
  · exact absurd hok (by simp)
  next ub h3 =>
  exact ⟨_, rfl⟩

/-- Claim C1: for every construction of `PICMI_FieldDiagnostic` or
`PICMI_ElectrostaticFieldDiagnostic` in which `number_of_cells`,
`lower_bound`, or `upper_bound` is omitted (or, equivalently, passed as
`None`), the corresponding stored attribute equals the value of the
grid object attribute of the same name read at construction time, and
each of the three fields is defaulted independently of whether the
other two were supplied (the arguments for the other two are
universally quantified). -/
theorem C1_geometry_defaults_from_grid :
    (∀ (g : GridObj) (p dl wd smin smax ncA lbA ubA : Option PyVal)
       (kw : List (String × PyVal)) (d : FieldDiagnostic),
       PICMI_FieldDiagnostic.init (Option.some g) p dl wd smin smax ncA lbA ubA kw = Except.ok d →
       (ncA.getD PyVal.pyNone = PyVal.pyNone → g.number_of_cells = Option.some d.number_of_cells) ∧
       (lbA.getD PyVal.pyNone = PyVal.pyNone → g.lower_bound = Option.some d.lower_bound) ∧
       (ubA.getD PyVal.pyNone = PyVal.pyNone → g.upper_bound = Option.some d.upper_bound)) ∧
    (∀ (g : GridObj) (p dl wd smin smax ncA lbA ubA : Option PyVal)
       (kw : List (String × PyVal)) (d : ElectrostaticFieldDiagnostic),
       PICMI_ElectrostaticFieldDiagnostic.init (Option.some g) p dl wd smin smax ncA lbA ubA kw = Except.ok d →
       (ncA.getD PyVal.pyNone = PyVal.pyNone → g.number_of_cells = Option.some d.number_of_cells) ∧
       (lbA.getD PyVal.pyNone = PyVal.pyNone → g.lower_bound = Option.some d.lower_bound) ∧
       (ubA.getD PyVal.pyNone = PyVal.pyNone → g.upper_bound = Option.some d.upper_bound)) :=
  ⟨fun g p dl wd smin smax ncA lbA ubA kw d hok =>
    fieldInit_default_from_grid g p dl wd smin smax ncA lbA ubA kw d hok,
   fun g p dl wd smin smax ncA lbA ubA kw d hok =>
    esInit_default_from_grid g p dl wd smin smax ncA lbA ubA kw d hok⟩

theorem C1_geometry_defaults_from_grid_witness :
    PICMI_FieldDiagnostic.init (Option.some testGrid) Option.none Option.none Option.none
        Option.none Option.none (Option.some (PyVal.pyInt 5)) Option.none Option.none []
      = Except.ok c1Diag ∧
    testGrid.lower_bound = Option.some c1Diag.lower_bound ∧
    testGrid.upper_bound = Option.some c1Diag.upper_bound :=
  ⟨by rfl,
   (C1_geometry_defaults_from_grid.1 testGrid Option.none Option.none Option.none
      Option.none Option.none (Option.some (PyVal.pyInt 5)) Option.none Option.none []
      c1Diag (by rfl)).2.1 (by rfl),
   (C1_geometry_defaults_from_grid.1 testGrid Option.none Option.none Option.none
      Option.none Option.none (Option.some (PyVal.pyInt 5)) Option.none Option.none []
      c1Diag (by rfl)).2.2 (by rfl)⟩

/-- Claim C2: for every construction of `PICMI_FieldDiagnostic` or
`PICMI_ElectrostaticFieldDiagnostic` with explicit non-`None`
`number_of_cells`, `lower_bound`, and `upper_bound`, construction
succeeds and the stored attributes equal exactly the supplied values;
the grid is universally quantified (including Python `None` and grids
lacking every geometry attribute), so no attribute of the grid object
is consulted. -/
theorem C2_explicit_geometry_verbatim :
    (∀ (grid : Option GridObj) (p dl wd smin smax : Option PyVal) (nc lb ub : PyVal)
       (kw : List (String × PyVal)),
       nc ≠ PyVal.pyNone → lb ≠ PyVal.pyNone → ub ≠ PyVal.pyNone →
       ∃ d : FieldDiagnostic,
         PICMI_FieldDiagnostic.init grid p dl wd smin smax
             (Option.some nc) (Option.some lb) (Option.some ub) kw = Except.ok d ∧
         d.number_of_cells = nc ∧ d.lower_bound = lb ∧ d.upper_bound = ub) ∧
    (∀ (grid : Option GridObj) (p dl wd smin smax : Option PyVal) (nc lb ub : PyVal)
       (kw : List (String × PyVal)),
       nc ≠ PyVal.pyNone → lb ≠ PyVal.pyNone → ub ≠ PyVal.pyNone →
       ∃ d : ElectrostaticFieldDiagnostic,
         PICMI_ElectrostaticFieldDiagnostic.init grid p dl wd smin smax
             (Option.some nc) (Option.some lb) (Option.some ub) kw = Except.ok d ∧
         d.number_of_cells = nc ∧ d.lower_bound = lb ∧ d.upper_bound = ub) :=
  ⟨fun grid p dl wd smin smax nc lb ub kw hnc hlb hub =>
    ⟨_, fieldInit_explicit grid p dl wd smin smax nc lb ub kw hnc hlb hub, rfl, rfl, rfl⟩,
   fun grid p dl wd smin smax nc lb ub kw hnc hlb hub =>
    ⟨_, esInit_explicit grid p dl wd smin smax nc lb ub kw hnc hlb hub, rfl, rfl, rfl⟩⟩

theorem C2_explicit_geometry_verbatim_witness :
    (PyVal.pyInt 7 ≠ PyVal.pyNone) ∧
    ∃ d : FieldDiagnostic,
      PICMI_FieldDiagnostic.init Option.none Option.none Option.none Option.none
          Option.none Option.none (Option.some (PyVal.pyInt 7))
          (Option.some (PyVal.pyInt 1)) (Option.some (PyVal.pyInt 2)) []
        = Except.ok d ∧
      d.number_of_cells = PyVal.pyInt 7 ∧ d.lower_bound = PyVal.pyInt 1 ∧
      d.upper_bound = PyVal.pyInt 2 :=
  ⟨by decide,
   C2_explicit_geometry_verbatim.1 Option.none Option.none Option.none Option.none
     Option.none Option.none (PyVal.pyInt 7) (PyVal.pyInt 1) (PyVal.pyInt 2) []
     (by decide) (by decide) (by decide)⟩

/-- Claim C3: when `data_list` is not supplied, the stored `data_list`
equals `["rho", "E", "B", "J"]` for `PICMI_FieldDiagnostic`,
`["rho", "phi"]` for `PICMI_ElectrostaticFieldDiagnostic`,
`["position", "momentum", "weighting"]` for `PICMI_ParticleDiagnostic`
and `PICMI_LabFrameParticleDiagnostic`, and `["rho", "E", "B", "J"]`
for `PICMI_LabFrameFieldDiagnostic`. -/
theorem C3_default_data_list :
    (∀ (grid : Option GridObj) (p wd smin smax ncA lbA ubA : Option PyVal)
       (kw : List (String × PyVal)) (d : FieldDiagnostic),
       PICMI_FieldDiagnostic.init grid p Option.none wd smin smax ncA lbA ubA kw = Except.ok d →
       d.data_list = PyVal.pyList [PyAtom.aStr "rho", PyAtom.aStr "E", PyAtom.aStr "B", PyAtom.aStr "J"]) ∧
    (∀ (grid : Option GridObj) (p wd smin smax ncA lbA ubA : Option PyVal)
       (kw : List (String × PyVal)) (d : ElectrostaticFieldDiagnostic),
       PICMI_ElectrostaticFieldDiagnostic.init grid p Option.none wd smin smax ncA lbA ubA kw = Except.ok d →
       d.data_list = PyVal.pyList [PyAtom.aStr "rho", PyAtom.aStr "phi"]) ∧
    (∀ (p sp wd smin smax : Option PyVal) (kw : List (String × PyVal)),
       (PICMI_ParticleDiagnostic.init p sp Option.none wd smin smax kw).data_list
         = PyVal.pyList [PyAtom.aStr "position", PyAtom.aStr "momentum", PyAtom.aStr "weighting"]) ∧
    (∀ (ns dts : PyVal) (sp wd : Option PyVal) (kw : List (String × PyVal)),
       (PICMI_LabFrameParticleDiagnostic.init ns dts sp Option.none wd kw).data_list
         = PyVal.pyList [PyAtom.aStr "position", PyAtom.aStr "momentum", PyAtom.aStr "weighting"]) ∧
    (∀ (ns dts : PyVal) (wd : Option PyVal) (kw : List (String × PyVal)),
       (PICMI_LabFrameFieldDiagnostic.init ns dts Option.none wd kw).data_list
         = PyVal.pyList [PyAtom.aStr "rho", PyAtom.aStr "E", PyAtom.aStr "B", PyAtom.aStr "J"]) :=
  ⟨fun grid p wd smin smax ncA lbA ubA kw d hok =>
    (fieldInit_ok_stores grid p Option.none wd smin smax ncA lbA ubA kw d hok).2.2.1,
   fun grid p wd smin smax ncA lbA ubA kw d hok =>
    (esInit_ok_stores grid p Option.none wd smin smax ncA lbA ubA kw d hok).2.2.1,
   fun _ _ _ _ _ _ => rfl,
   fun _ _ _ _ _ => rfl,
   fun _ _ _ _ => rfl⟩

theorem C3_default_data_list_witness :
    PICMI_FieldDiagnostic.init (Option.some testGrid) Option.none Option.none Option.none
        Option.none Option.none Option.none Option.none Option.none []
      = Except.ok allDefaultFieldDiag ∧
    allDefaultFieldDiag.data_list
      = PyVal.pyList [PyAtom.aStr "rho", PyAtom.aStr "E", PyAtom.aStr "B", PyAtom.aStr "J"] :=
  ⟨by rfl,
   C3_default_data_list.1 (Option.some testGrid) Option.none Option.none Option.none
     Option.none Option.none Option.none Option.none [] allDefaultFieldDiag (by rfl)⟩

/-- Claim C4: for every successful construction of
`PICMI_FieldDiagnostic` or `PICMI_ElectrostaticFieldDiagnostic`, the
resulting object has all three geometry attributes populated, each
taken either from the resolved caller argument or from the
corresponding grid attribute read by `getattr`. -/
theorem C4_geometry_populated :
    (∀ (grid : Option GridObj) (p dl wd smin smax ncA lbA ubA : Option PyVal)
       (kw : List (String × PyVal)) (d : FieldDiagnostic),
       PICMI_FieldDiagnostic.init grid p dl wd smin smax ncA lbA ubA kw = Except.ok d →
       (d.number_of_cells = ncA.getD PyVal.pyNone ∨ gridGetNumberOfCells grid = Except.ok d.number_of_cells) ∧
       (d.lower_bound = lbA.getD PyVal.pyNone ∨ gridGetLowerBound grid = Except.ok d.lower_bound) ∧
       (d.upper_bound = ubA.getD PyVal.pyNone ∨ gridGetUpperBound grid = Except.ok d.upper_bound)) ∧
    (∀ (grid : Option GridObj) (p dl wd smin smax ncA lbA ubA : Option PyVal)
       (kw : List (String × PyVal)) (d : ElectrostaticFieldDiagnostic),
       PICMI_ElectrostaticFieldDiagnostic.init grid p dl wd smin smax ncA lbA ubA kw = Except.ok d →
       (d.number_of_cells = ncA.getD PyVal.pyNone ∨ gridGetNumberOfCells grid = Except.ok d.number_of_cells) ∧
       (d.lower_bound = lbA.getD PyVal.pyNone ∨ gridGetLowerBound grid = Except.ok d.lower_bound) ∧
       (d.upper_bound = ubA.getD PyVal.pyNone ∨ gridGetUpperBound grid = Except.ok d.upper_bound)) :=
  ⟨fun grid p dl wd smin smax ncA lbA ubA kw d hok =>
    fieldInit_ok_provenance grid p dl wd smin smax ncA lbA ubA kw d hok,
   fun grid p dl wd smin smax ncA lbA ubA kw d hok =>
    esInit_ok_provenance grid p dl wd smin smax ncA lbA ubA kw d hok⟩

theorem C4_geometry_populated_witness :
    PICMI_FieldDiagnostic.init (Option.some testGrid) Option.none Option.none Option.none
        Option.none Option.none Option.none Option.none Option.none []
      = Except.ok allDefaultFieldDiag ∧
    (allDefaultFieldDiag.number_of_cells = (Option.none : Option PyVal).getD PyVal.pyNone ∨
     gridGetNumberOfCells (Option.some testGrid) = Except.ok allDefaultFieldDiag.number_of_cells) :=
  ⟨by rfl,
   (C4_geometry_populated.1 (Option.some testGrid) Option.none Option.none Option.none
     Option.none Option.none Option.none Option.none Option.none [] allDefaultFieldDiag (by rfl)).1⟩

/-- Claim C5: constructing a simulation-frame field diagnostic with
grid `None` and no explicit geometry overrides fails with a
missing-attribute fault (`AttributeError` on `number_of_cells`, the
first geometry attribute read) that propagates to the caller, and every
failure either constructor body can produce is a missing-attribute
fault naming one of the three geometry attributes - the only fault
class construction can raise. -/
theorem C5_missing_attribute_fault :
    (∀ (p dl wd smin smax : Option PyVal) (kw : List (String × PyVal)),
       PICMI_FieldDiagnostic.init Option.none p dl wd smin smax
           Option.none Option.none Option.none kw
         = Except.error (PyFault.attributeError "number_of_cells")) ∧
    (∀ (p dl wd smin smax : Option PyVal) (kw : List (String × PyVal)),
       PICMI_ElectrostaticFieldDiagnostic.init Option.none p dl wd smin smax
           Option.none Option.none Option.none kw
         = Except.error (PyFault.attributeError "number_of_cells")) ∧
    (∀ (grid : Option GridObj) (p dl wd smin smax ncA lbA ubA : Option PyVal)
       (kw : List (String × PyVal)) (e : PyFault),
       PICMI_FieldDiagnostic.init grid p dl wd smin smax ncA lbA ubA kw = Except.error e →
       e = PyFault.attributeError "number_of_cells" ∨
       e = PyFault.attributeError "lower_bound" ∨
       e = PyFault.attributeError "upper_bound") ∧
    (∀ (grid : Option GridObj) (p dl wd smin smax ncA lbA ubA : Option PyVal)
       (kw : List (String × PyVal)) (e : PyFault),
       PICMI_ElectrostaticFieldDiagnostic.init grid p dl wd smin smax ncA lbA ubA kw = Except.error e →
       e = PyFault.attributeError "number_of_cells" ∨
       e = PyFault.attributeError "lower_bound" ∨
       e = PyFault.attributeError "upper_bound") :=
  ⟨fun p dl wd smin smax kw => fieldInit_no_grid_fails p dl wd smin smax kw,
   fun p dl wd smin smax kw => esInit_no_grid_fails p dl wd smin smax kw,
   fun grid p dl wd smin smax ncA lbA ubA kw e herr =>
    fieldInit_error_classify grid p dl wd smin smax ncA lbA ubA kw e herr,
   fun grid p dl wd smin smax ncA lbA ubA kw e herr =>
    esInit_error_classify grid p dl wd smin smax ncA lbA ubA kw e herr⟩

theorem C5_missing_attribute_fault_witness :
    PICMI_FieldDiagnostic.init Option.none Option.none Option.none Option.none
        Option.none Option.none Option.none Option.none Option.none []
      = Except.error (PyFault.attributeError "number_of_cells") ∧
    (PyFault.attributeError "number_of_cells" = PyFault.attributeError "number_of_cells" ∨
     PyFault.attributeError "number_of_cells" = PyFault.attributeError "lower_bound" ∨
     PyFault.attributeError "number_of_cells" = PyFault.attributeError "upper_bound") :=
  ⟨by rfl,
   C5_missing_attribute_fault.2.2.1 Option.none Option.none Option.none Option.none
     Option.none Option.none Option.none Option.none Option.none []
     (PyFault.attributeError "number_of_cells") (by rfl)⟩

/-- Claim C6: constructing `PICMI_LabFrameFieldDiagnostic` or
`PICMI_LabFrameParticleDiagnostic` requires both `num_snapshots` and
`dt_snapshots`: a construction call omitting either argument fails at
argument-binding time with a `TypeError`, and when both are supplied
the stored `num_snapshots` and `dt_snapshots` equal the supplied
values. -/
theorem C6_lab_frame_required_arguments :
    (∀ (dts dl wd : Option PyVal) (kw : List (String × PyVal)),
       PICMI_LabFrameFieldDiagnostic.call Option.none dts dl wd kw
         = Except.error (PyCallFault.typeError "num_snapshots")) ∧
    (∀ (ns : PyVal) (dl wd : Option PyVal) (kw : List (String × PyVal)),
       PICMI_LabFrameFieldDiagnostic.call (Option.some ns) Option.none dl wd kw
         = Except.error (PyCallFault.typeError "dt_snapshots")) ∧
    (∀ (dts sp dl wd : Option PyVal) (kw : List (String × PyVal)),
       PICMI_LabFrameParticleDiagnostic.call Option.none dts sp dl wd kw
         = Except.error (PyCallFault.typeError "num_snapshots")) ∧
    (∀ (ns : PyVal) (sp dl wd : Option PyVal) (kw : List (String × PyVal)),
       PICMI_LabFrameParticleDiagnostic.call (Option.some ns) Option.none sp dl wd kw
         = Except.error (PyCallFault.typeError "dt_snapshots")) ∧
    (∀ (ns dts : PyVal) (dl wd : Option PyVal) (kw : List (String × PyVal)),
       ∃ d : LabFrameFieldDiagnostic,
         PICMI_LabFrameFieldDiagnostic.call (Option.some ns) (Option.some dts) dl wd kw
           = Except.ok d ∧
         d.num_snapshots = ns ∧ d.dt_snapshots = dts) ∧
    (∀ (ns dts : PyVal) (sp dl wd : Option PyVal) (kw : List (String × PyVal)),
       ∃ d : LabFrameParticleDiagnostic,
         PICMI_LabFrameParticleDiagnostic.call (Option.some ns) (Option.some dts) sp dl wd kw
           = Except.ok d ∧
         d.num_snapshots = ns ∧ d.dt_snapshots = dts) :=
  ⟨fun _ _ _ _ => rfl,
   fun _ _ _ _ => rfl,
   fun _ _ _ _ _ => rfl,
   fun _ _ _ _ _ => rfl,
   fun _ _ _ _ _ => ⟨_, rfl, rfl, rfl⟩,
   fun _ _ _ _ _ _ => ⟨_, rfl, rfl, rfl⟩⟩

/-- Claim C7: for every construction of `PICMI_ParticleDiagnostic`,
the stored `period`, `species`, `data_list`, `write_dir`, `step_min`,
and `step_max` equal exactly the resolved arguments, with `period`
defaulting to 1 and `species` to `None` when omitted; the constructor
consults no other entity (it takes no grid and is a total function of
its arguments). -/
theorem C7_particle_diagnostic_verbatim :
    ∀ (p sp dl wd smin smax : Option PyVal) (kw : List (String × PyVal)),
      (PICMI_ParticleDiagnostic.init p sp dl wd smin smax kw).period = p.getD (PyVal.pyInt 1) ∧
      (PICMI_ParticleDiagnostic.init p sp dl wd smin smax kw).species = sp.getD PyVal.pyNone ∧
      (PICMI_ParticleDiagnostic.init p sp dl wd smin smax kw).data_list
        = dl.getD particleDiagnosticDefaultDataList ∧
      (PICMI_ParticleDiagnostic.init p sp dl wd smin smax kw).write_dir = wd.getD PyVal.pyNone ∧
      (PICMI_ParticleDiagnostic.init p sp dl wd smin smax kw).step_min = smin.getD PyVal.pyNone ∧
      (PICMI_ParticleDiagnostic.init p sp dl wd smin smax kw).step_max = smax.getD PyVal.pyNone :=
  fun _ _ _ _ _ _ _ => ⟨rfl, rfl, rfl, rfl, rfl, rfl⟩

/-- Claim C8: for every diagnostic class, construction with arbitrary
extra keyword arguments stores the extras via the shared `handle_init`
helper so that each extra key is retrievable from the constructed
object afterward, and the extra keywords never cause a construction
that would otherwise succeed to fail. -/
theorem C8_extra_keywords_retrievable :
    ∀ (k : String) (v : PyVal) (kw : List (String × PyVal)),
      kw.lookup k = Option.some v →
      (∀ (grid : Option GridObj) (p dl wd smin smax ncA lbA ubA : Option PyVal)
         (d : FieldDiagnostic),
         PICMI_FieldDiagnostic.init grid p dl wd smin smax ncA lbA ubA kw = Except.ok d →
         d.extra.lookup k = Option.some v) ∧
      (∀ (grid : Option GridObj) (p dl wd smin smax ncA lbA ubA : Option PyVal)
         (d : ElectrostaticFieldDiagnostic),
         PICMI_ElectrostaticFieldDiagnostic.init grid p dl wd smin smax ncA lbA ubA kw = Except.ok d →
         d.extra.lookup k = Option.some v) ∧
      (∀ (p sp dl wd smin smax : Option PyVal),
         (PICMI_ParticleDiagnostic.init p sp dl wd smin smax kw).extra.lookup k = Option.some v) ∧
      (∀ (ns dts : PyVal) (dl wd : Option PyVal),
         (PICMI_LabFrameFieldDiagnostic.init ns dts dl wd kw).extra.lookup k = Option.some v) ∧
      (∀ (ns dts : PyVal) (sp dl wd : Option PyVal),
         (PICMI_LabFrameParticleDiagnostic.init ns dts sp dl wd kw).extra.lookup k = Option.some v) ∧
      (∀ (grid : Option GridObj) (p dl wd smin smax ncA lbA ubA : Option PyVal)
         (kw2 : List (String × PyVal)) (d : FieldDiagnostic),
         PICMI_FieldDiagnostic.init grid p dl wd smin smax ncA lbA ubA kw2 = Except.ok d →
         ∃ d2 : FieldDiagnostic,
           PICMI_FieldDiagnostic.init grid p dl wd smin smax ncA lbA ubA kw = Except.ok d2) ∧
      (∀ (grid : Option GridObj) (p dl wd smin smax ncA lbA ubA : Option PyVal)
         (kw2 : List (String × PyVal)) (d : ElectrostaticFieldDiagnostic),
         PICMI_ElectrostaticFieldDiagnostic.init grid p dl wd smin smax ncA lbA ubA kw2 = Except.ok d →
         ∃ d2 : ElectrostaticFieldDiagnostic,
           PICMI_ElectrostaticFieldDiagnostic.init grid p dl wd smin smax ncA lbA ubA kw = Except.ok d2) := by
  intro k v kw hkv
  refine ⟨?_, ?_, ?_, ?_, ?_, ?_, ?_⟩
  · intro grid p dl wd smin smax ncA lbA ubA d hok
    have h := (fieldInit_ok_stores grid p dl wd smin smax ncA lbA ubA kw d hok).2.2.2.2.2.2
    rw [h]
    exact hkv
  · intro grid p dl wd smin smax ncA lbA ubA d hok
    have h := (esInit_ok_stores grid p dl wd smin smax ncA lbA ubA kw d hok).2.2.2.2.2.2
    rw [h]
    exact hkv
  · intro p sp dl wd smin smax
    exact hkv
  · intro ns dts dl wd
    exact hkv
  · intro ns dts sp dl wd
    exact hkv
  · intro grid p dl wd smin smax ncA lbA ubA kw2 d hok
    exact fieldInit_ok_kw_any grid p dl wd smin smax ncA lbA ubA kw2 kw d hok
  · intro grid p dl wd smin smax ncA lbA ubA kw2 d hok
    exact esInit_ok_kw_any grid p dl wd smin smax ncA lbA ubA kw2 kw d hok

theorem C8_extra_keywords_retrievable_witness :
    ([("label", PyVal.pyStr "mydiag")].lookup "label" = Option.some (PyVal.pyStr "mydiag")) ∧
    (PICMI_ParticleDiagnostic.init Option.none Option.none Option.none Option.none
        Option.none Option.none [("label", PyVal.pyStr "mydiag")]).extra.lookup "label"
      = Option.some (PyVal.pyStr "mydiag") :=
  ⟨by rfl,
   (C8_extra_keywords_retrievable "label" (PyVal.pyStr "mydiag")
      [("label", PyVal.pyStr "mydiag")] (by rfl)).2.2.1
     Option.none Option.none Option.none Option.none Option.none Option.none⟩

/-- Claim C9: for every diagnostic class, when the optional arguments
are omitted the stored values are `None`, not the values the docstrings
describe: `write_dir` is stored as `None` (not `"."`), `step_min` as
`None` (not 0), and `step_max` as `None`. -/
theorem C9_omitted_optionals_stored_as_none :
    (PyVal.pyNone ≠ PyVal.pyStr "." ∧ PyVal.pyNone ≠ PyVal.pyInt 0) ∧
    (∀ (grid : Option GridObj) (p dl ncA lbA ubA : Option PyVal)
       (kw : List (String × PyVal)) (d : FieldDiagnostic),
       PICMI_FieldDiagnostic.init grid p dl Option.none Option.none Option.none ncA lbA ubA kw = Except.ok d →
       d.write_dir = PyVal.pyNone ∧ d.step_min = PyVal.pyNone ∧ d.step_max = PyVal.pyNone) ∧
    (∀ (grid : Option GridObj) (p dl ncA lbA ubA : Option PyVal)
       (kw : List (String × PyVal)) (d : ElectrostaticFieldDiagnostic),
       PICMI_ElectrostaticFieldDiagnostic.init grid p dl Option.none Option.none Option.none ncA lbA ubA kw = Except.ok d →
       d.write_dir = PyVal.pyNone ∧ d.step_min = PyVal.pyNone ∧ d.step_max = PyVal.pyNone) ∧
    (∀ (p sp dl : Option PyVal) (kw : List (String × PyVal)),
       (PICMI_ParticleDiagnostic.init p sp dl Option.none Option.none Option.none kw).write_dir = PyVal.pyNone ∧
       (PICMI_ParticleDiagnostic.init p sp dl Option.none Option.none Option.none kw).step_min = PyVal.pyNone ∧
       (PICMI_ParticleDiagnostic.init p sp dl Option.none Option.none Option.none kw).step_max = PyVal.pyNone) ∧
    (∀ (ns dts : PyVal) (dl : Option PyVal) (kw : List (String × PyVal)),
       (PICMI_LabFrameFieldDiagnostic.init ns dts dl Option.none kw).write_dir = PyVal.pyNone) ∧
    (∀ (ns dts : PyVal) (sp dl : Option PyVal) (kw : List (String × PyVal)),
       (PICMI_LabFrameParticleDiagnostic.init ns dts sp dl Option.none kw).write_dir = PyVal.pyNone) := by
  refine ⟨⟨by decide, by decide⟩, ?_, ?_, ?_, ?_, ?_⟩
  · intro grid p dl ncA lbA ubA kw d hok
    have h := fieldInit_ok_stores grid p dl Option.none Option.none Option.none ncA lbA ubA kw d hok
    exact ⟨h.2.2.2.1, h.2.2.2.2.1, h.2.2.2.2.2.1⟩
  · intro grid p dl ncA lbA ubA kw d hok
    have h := esInit_ok_stores grid p dl Option.none Option.none Option.none ncA lbA ubA kw d hok
    exact ⟨h.2.2.2.1, h.2.2.2.2.1, h.2.2.2.2.2.1⟩
  · intro p sp dl kw
    exact ⟨rfl, rfl, rfl⟩
  · intro ns dts dl kw
    exact rfl
  · intro ns dts sp dl kw
    exact rfl

theorem C9_omitted_optionals_stored_as_none_witness :
    PICMI_FieldDiagnostic.init (Option.some testGrid) Option.none Option.none Option.none
        Option.none Option.none Option.none Option.none Option.none []
      = Except.ok allDefaultFieldDiag ∧
    (allDefaultFieldDiag.write_dir = PyVal.pyNone ∧
     allDefaultFieldDiag.step_min = PyVal.pyNone ∧
     allDefaultFieldDiag.step_max = PyVal.pyNone) :=
  ⟨by rfl,
   C9_omitted_optionals_stored_as_none.2.1 (Option.some testGrid) Option.none Option.none
     Option.none Option.none Option.none [] allDefaultFieldDiag (by rfl)⟩

/-- Claim C10: for every construction of `PICMI_FieldDiagnostic` or
`PICMI_ElectrostaticFieldDiagnostic` in which all three of
`number_of_cells`, `lower_bound`, and `upper_bound` are supplied
non-`None`, the grid-attribute-access branches are unreachable:
construction succeeds for every grid argument, including Python `None`
and grid objects lacking all geometry attributes, and the supplied grid
value is stored as-is in the `grid` attribute. -/
theorem C10_explicit_geometry_ignores_grid :
    (∀ (grid : Option GridObj) (p dl wd smin smax : Option PyVal) (nc lb ub : PyVal)
       (kw : List (String × PyVal)),
       nc ≠ PyVal.pyNone → lb ≠ PyVal.pyNone → ub ≠ PyVal.pyNone →
       ∃ d : FieldDiagnostic,
         PICMI_FieldDiagnostic.init grid p dl wd smin smax
             (Option.some nc) (Option.some lb) (Option.some ub) kw = Except.ok d ∧
         d.grid = grid) ∧
    (∀ (grid : Option GridObj) (p dl wd smin smax : Option PyVal) (nc lb ub : PyVal)
       (kw : List (String × PyVal)),
       nc ≠ PyVal.pyNone → lb ≠ PyVal.pyNone → ub ≠ PyVal.pyNone →
       ∃ d : ElectrostaticFieldDiagnostic,
         PICMI_ElectrostaticFieldDiagnostic.init grid p dl wd smin smax
             (Option.some nc) (Option.some lb) (Option.some ub) kw = Except.ok d ∧
         d.grid = grid) :=
  ⟨fun grid p dl wd smin smax nc lb ub kw hnc hlb hub =>
    ⟨_, fieldInit_explicit grid p dl wd smin smax nc lb ub kw hnc hlb hub, rfl⟩,
   fun grid p dl wd smin smax nc lb ub kw hnc hlb hub =>
    ⟨_, esInit_explicit grid p dl wd smin smax nc lb ub kw hnc hlb hub, rfl⟩⟩

theorem C10_explicit_geometry_ignores_grid_witness :
    (PyVal.pyInt 4 ≠ PyVal.pyNone) ∧
    ∃ d : FieldDiagnostic,
      PICMI_FieldDiagnostic.init (Option.some emptyGrid) Option.none Option.none Option.none
          Option.none Option.none (Option.some (PyVal.pyInt 4))
          (Option.some (PyVal.pyInt 0)) (Option.some (PyVal.pyInt 9)) []
        = Except.ok d ∧
      d.grid = Option.some emptyGrid :=
  ⟨by decide,
   C10_explicit_geometry_ignores_grid.1 (Option.some emptyGrid) Option.none Option.none
     Option.none Option.none Option.none (PyVal.pyInt 4) (PyVal.pyInt 0) (PyVal.pyInt 9) []
     (by decide) (by decide) (by decide)⟩
